import Mathlib

/-!
Shallow embedding of the A2A SerpAPI hotel agent (`src/a2a-serpapi-agent/main.py`).

JSON numbers are modelled as `ℚ` (ratings, prices, coordinates) or `Int`
(counts, integral price filters); missing JSON fields are `Option`; Python
dictionaries whose keys the program reads are records with one field per key
read.  Python truthiness on the values involved (`None`, the empty string,
the number zero are falsy) is modelled explicitly by the `...Truthy`
functions below, since the source branches on truthiness, not on presence.
The outbound HTTP call is modelled as a function from the built query
parameters to an upstream outcome (success with parsed data, an HTTP status
error, or any other exception); the `try/except` blocks of the source become
total pattern matches over that outcome type.
-/

namespace SerpApiAgent

/-- Python truthiness of an optional string: `None` and `""` are falsy. -/
def strTruthy : Option String → Bool
  | none => false
  | some s => !(s == "")

/-- Python truthiness of an optional integer: `None` and `0` are falsy. -/
def intTruthy : Option Int → Bool
  | none => false
  | some n => !(n == 0)

/-- Python truthiness of an optional rational: `None` and `0` are falsy. -/
def ratTruthy : Option ℚ → Bool
  | none => false
  | some q => !(q == 0)

/-- One entry of a property's `images` list: the two keys the source reads
(`img.get("thumbnail")`, `img.get("original_image")`, main.py:265). -/
structure ImageObj where
  thumbnail : Option String
  original_image : Option String
deriving DecidableEq

/-- Python `a or b` on optional strings: yields `a` when `a` is truthy,
otherwise `b` unchanged. -/
def pyOrStr (a b : Option String) : Option String :=
  if strTruthy a then a else b

/-- The image extraction of main.py:265:
`[img.get("thumbnail") or img.get("original_image") for img in prop.get("images", [])[:6] if img.get("thumbnail") or img.get("original_image")]`. -/
def extractImages (imgs : List ImageObj) : List String :=
  (imgs.take 6).filterMap fun img =>
    let v := pyOrStr img.thumbnail img.original_image
    if strTruthy v then v else none

/-- Spec formulation of the per-image choice (§4.2): prefer the thumbnail
URL, fall back to the original URL, drop the entry when neither is a
(non-empty) URL.  Declared separately from `extractImages` so the source's
list comprehension can be proved to refine it. -/
def specImagePick (img : ImageObj) : Option String :=
  if strTruthy img.thumbnail then img.thumbnail
  else if strTruthy img.original_image then img.original_image
  else none

theorem pyOrStr_pick (img : ImageObj) :
    (let v := pyOrStr img.thumbnail img.original_image
     if strTruthy v then v else none) = specImagePick img := by
  unfold pyOrStr specImagePick
  by_cases h : strTruthy img.thumbnail
  · simp [h]
  · simp [h]

theorem extractImages_eq_spec (imgs : List ImageObj) :
    extractImages imgs = (imgs.take 6).filterMap specImagePick := by
  unfold extractImages
  exact List.filterMap_congr fun img _ => pyOrStr_pick img

theorem extractImages_length_le (imgs : List ImageObj) :
    (extractImages imgs).length ≤ 6 := by
  unfold extractImages
  calc ((imgs.take 6).filterMap _).length ≤ (imgs.take 6).length :=
        List.length_filterMap_le _ _
    _ ≤ 6 := List.length_take_le 6 imgs

/-- Nested `gps_coordinates` object (main.py:261-262). -/
structure GpsCoordinates where
  latitude : Option ℚ
  longitude : Option ℚ
deriving DecidableEq

/-- Nested `rate_per_night` / `total_rate` objects (main.py:274-281). -/
structure RateInfo where
  extracted_lowest : Option ℚ
  lowest : Option String
deriving DecidableEq

/-- One entry of the upstream `properties` array, restricted to the keys the
source reads (main.py:247-281). -/
structure Property where
  name : Option String
  description : Option String
  property_token : Option String
  overall_rating : Option ℚ
  reviews : Option Int
  hotel_class : Option Int
  address : Option String
  neighborhood : Option String
  gps_coordinates : Option GpsCoordinates
  amenities : List String
  images : List ImageObj
  rate_per_night : Option RateInfo
  total_rate : Option RateInfo
deriving DecidableEq

/-- The `location` sub-record of a normalized hotel (main.py:258-263). -/
structure Location where
  address : String
  neighborhood : String
  latitude : Option ℚ
  longitude : Option ℚ
deriving DecidableEq

/-- The normalized hotel record built at main.py:247-281. -/
structure Hotel where
  name : String
  description : String
  propertyToken : String
  rating : Option ℚ
  reviewCount : Option Int
  stars : Option Int
  price : Option String
  pricePerNight : Option ℚ
  totalPrice : Option ℚ
  currency : String
  location : Location
  amenities : List String
  images : List String
  checkIn : String
  checkOut : String
deriving DecidableEq

/-- Builds one normalized hotel record from an upstream property,
mirroring main.py:247-281 (dict construction, then the two pricing
`if` blocks). -/
def extractHotel (currency check_in check_out : String) (prop : Property) : Hotel :=
  let base : Hotel :=
    { name := prop.name.getD "Unknown"
      description := prop.description.getD ""
      propertyToken := prop.property_token.getD ""
      rating := prop.overall_rating
      reviewCount := prop.reviews
      stars := prop.hotel_class
      price := none
      pricePerNight := none
      totalPrice := none
      currency := currency
      location :=
        { address := prop.address.getD ""
          neighborhood := prop.neighborhood.getD ""
          latitude := (prop.gps_coordinates.getD { latitude := none, longitude := none }).latitude
          longitude := (prop.gps_coordinates.getD { latitude := none, longitude := none }).longitude }
      amenities := prop.amenities
      images := extractImages prop.images
      checkIn := check_in
      checkOut := check_out }
  let withNight :=
    match prop.rate_per_night with
    | some r => { base with pricePerNight := r.extracted_lowest, price := some (r.lowest.getD "") }
    | none => base
  match prop.total_rate with
  | some tr => { withNight with totalPrice := tr.extracted_lowest }
  | none => withNight

/-- The rating filter of main.py:283-287: the record is skipped
(`continue`) exactly when `min_rating` is truthy, the extracted rating is
truthy, and rating < min_rating; this function returns `true` when the
record is kept. -/
def passesRatingFilter (minRating rating : Option ℚ) : Bool :=
  !(ratTruthy minRating && ratTruthy rating && decide (rating.getD 0 < minRating.getD 0))

/-- The normalization loop of main.py:237-289: iterate over the first 10
properties, extract the hotel record, then apply the rating filter and
collect the survivors in order. -/
def normalizeProperties (minRating : Option ℚ) (currency check_in check_out : String)
    (props : List Property) : List Hotel :=
  (props.take 10).filterMap fun prop =>
    let h := extractHotel currency check_in check_out prop
    if passesRatingFilter minRating h.rating then some h else none

theorem filterMap_if_eq_map_filter {α β : Type} (f : α → β) (p : β → Bool) (l : List α) :
    (l.filterMap fun a => if p (f a) then some (f a) else none) = (l.map f).filter p := by
  induction l with
  | nil => rfl
  | cons a l ih =>
    by_cases h : p (f a)
    · simp [List.filterMap_cons, List.filter_cons, h, ih]
    · simp [List.filterMap_cons, List.filter_cons, h, ih]

theorem normalizeProperties_eq_map_filter (minRating : Option ℚ)
    (currency check_in check_out : String) (props : List Property) :
    normalizeProperties minRating currency check_in check_out props =
      ((props.take 10).map (extractHotel currency check_in check_out)).filter
        (fun h => passesRatingFilter minRating h.rating) := by
  unfold normalizeProperties
  exact filterMap_if_eq_map_filter (extractHotel currency check_in check_out)
    (fun h => passesRatingFilter minRating h.rating) (props.take 10)

theorem normalizeProperties_length_le (minRating : Option ℚ)
    (currency check_in check_out : String) (props : List Property) :
    (normalizeProperties minRating currency check_in check_out props).length ≤ 10 := by
  unfold normalizeProperties
  calc ((props.take 10).filterMap _).length ≤ (props.take 10).length :=
        List.length_filterMap_le _ _
    _ ≤ 10 := List.length_take_le 10 props

/-- The price entry added to the upstream query (main.py:206-212): either a
combined `price=min,max`, or a single-sided `min_price` / `max_price`. -/
inductive PriceParam where
  | pricePair (mn mx : Int)
  | minOnly (mn : Int)
  | maxOnly (mx : Int)
deriving DecidableEq

/-- Renders a `PriceParam` as the query key/value pair the source puts in
the request dictionary. -/
def PriceParam.render : PriceParam → String × String
  | .pricePair mn mx => ("price", toString mn ++ "," ++ toString mx)
  | .minOnly mn => ("min_price", toString mn)
  | .maxOnly mx => ("max_price", toString mx)

/-- The price-filter branch of main.py:206-212.  The outer guard tests
`is not None`; the inner branches test Python truthiness (`0` is falsy). -/
def priceEncoding (min_price max_price : Option Int) : Option PriceParam :=
  if min_price.isSome || max_price.isSome then
    if intTruthy min_price && intTruthy max_price then
      some (.pricePair (min_price.getD 0) (max_price.getD 0))
    else if intTruthy min_price then
      some (.minOnly (min_price.getD 0))
    else if intTruthy max_price then
      some (.maxOnly (max_price.getD 0))
    else
      none
  else
    none

/-- The input dictionary of the `search-hotels-live` skill, restricted to
the keys read at main.py:169-176, together with the `propertyToken` key
read by `get-hotel-details` (main.py:335): both skills receive the same
loosely-typed parameter dictionary. -/
structure Params where
  destination : Option String
  checkInDate : Option String
  checkOutDate : Option String
  adults : Option Int
  currency : Option String
  minPrice : Option Int
  maxPrice : Option Int
  minRating : Option ℚ
  propertyToken : Option String
deriving DecidableEq

/-- The empty parameter dictionary (`{}`). -/
def emptyParams : Params :=
  { destination := none, checkInDate := none, checkOutDate := none, adults := none,
    currency := none, minPrice := none, maxPrice := none, minRating := none,
    propertyToken := none }

/-- The query-parameter dictionary built for the search request
(main.py:193-212). -/
structure SerpParams where
  engine : String
  q : String
  check_in_date : String
  check_out_date : String
  adults : Int
  currency : String
  api_key : String
  hl : String
  gl : String
  price : Option PriceParam
deriving DecidableEq

/-- Builds the search request's query parameters (main.py:193-212);
`check_in`/`check_out` are the already-defaulted dates. -/
def buildSerpParams (apiKey : String) (p : Params) (check_in check_out : String) : SerpParams :=
  { engine := "google_hotels"
    q := p.destination.getD ""
    check_in_date := check_in
    check_out_date := check_out
    adults := p.adults.getD 2
    currency := p.currency.getD "USD"
    api_key := apiKey
    hl := "en"
    gl := "us"
    price := priceEncoding p.minPrice p.maxPrice }

/-- The query-parameter dictionary built for the details request
(main.py:359-367). -/
structure DetailsSerpParams where
  engine : String
  property_token : String
  check_in_date : String
  check_out_date : String
  api_key : String
  hl : String
  gl : String
deriving DecidableEq

/-- The parsed JSON body of a successful upstream response: the
`properties` array (read by the search skill via `data.get("properties", [])`,
main.py:233) plus the rest of the document, which the details skill passes
through uninspected (main.py:388). -/
structure UpstreamData where
  properties : List Property
  rest : String
deriving DecidableEq

/-- Outcome of one outbound HTTP GET as observed by the `try` blocks:
either a 2xx response whose body parsed as JSON, or an HTTP status error
raised by `raise_for_status` (main.py:224/379), or any other exception
(timeout, connection failure, malformed JSON), carrying its message. -/
inductive UpstreamOutcome where
  | ok (data : UpstreamData)
  | httpError (status : Nat)
  | exc (message : String)
deriving DecidableEq

/-- Modelled from the spec: the message of the HTTP-status exception raised
by the HTTP client library on a non-2xx response (the library itself is not
part of this repository).  Per §4.1 the upstream HTTP failure "carries the
numeric status code"; the library embeds the code in the exception text,
which `get_hotel_details` stringifies at main.py:402. -/
def httpStatusErrorMessage (status : Nat) : String :=
  "Client error response " ++ toString status ++ " for url"

/-- The environment of one request: the configured credential, the two
clock-derived default dates (tomorrow and tomorrow+2, main.py:179-182), and
the upstream's behaviour as a function from the issued query parameters to
the observed outcome. -/
structure Env where
  apiKey : String
  tomorrow : String
  plusThree : String
  searchUpstream : SerpParams → UpstreamOutcome
  detailsUpstream : DetailsSerpParams → UpstreamOutcome

/-- Result dictionary of the search skill (main.py:186-190, 291-299,
313-317, 320-324); keys present only on some paths are `Option`. -/
structure SearchResult where
  success : Bool
  error : Option String
  destination : Option String
  checkIn : Option String
  checkOut : Option String
  hotelCount : Option Nat
  hotels : List Hotel
  source : Option String
deriving DecidableEq

/-- Result dictionary of the details skill (main.py:341-344, 348-351,
386-390, 400-403). -/
structure DetailsResult where
  success : Bool
  error : Option String
  hotel : Option UpstreamData
  source : Option String
deriving DecidableEq

/-- The `try/except` tail of `search_hotels_live` (main.py:219-324): maps
the upstream outcome to the returned result dictionary. -/
def processSearchOutcome (minRating : Option ℚ) (destination check_in check_out currency : String) :
    UpstreamOutcome → SearchResult
  | .ok data =>
    let hotels := normalizeProperties minRating currency check_in check_out data.properties
    { success := true, error := none, destination := some destination,
      checkIn := some check_in, checkOut := some check_out,
      hotelCount := some hotels.length, hotels := hotels,
      source := some "Google Hotels via SerpAPI" }
  | .httpError status =>
    { success := false, error := some ("SerpAPI request failed: " ++ toString status),
      destination := none, checkIn := none, checkOut := none, hotelCount := none,
      hotels := [], source := none }
  | .exc msg =>
    { success := false, error := some ("Failed to search hotels: " ++ msg),
      destination := none, checkIn := none, checkOut := none, hotelCount := none,
      hotels := [], source := none }

/-- The `search-hotels-live` skill (main.py:161-324). -/
def searchHotelsLive (env : Env) (p : Params) : SearchResult :=
  let destination := p.destination.getD ""
  let check_in := if strTruthy p.checkInDate then p.checkInDate.getD "" else env.tomorrow
  let check_out := if strTruthy p.checkOutDate then p.checkOutDate.getD "" else env.plusThree
  let currency := p.currency.getD "USD"
  if env.apiKey == "" then
    { success := false,
      error := some "SerpAPI API key not configured. Please set SERPAPI_API_KEY environment variable.",
      destination := none, checkIn := none, checkOut := none, hotelCount := none,
      hotels := [], source := none }
  else
    processSearchOutcome p.minRating destination check_in check_out currency
      (env.searchUpstream (buildSerpParams env.apiKey p check_in check_out))

/-- The `try/except` tail of `get_hotel_details` (main.py:374-403): the
only handler is the generic `except Exception`, which stringifies the
exception; an HTTP status error therefore surfaces through its library
message. -/
def processDetailsOutcome : UpstreamOutcome → DetailsResult
  | .ok data =>
    { success := true, error := none, hotel := some data,
      source := some "Google Hotels via SerpAPI" }
  | .httpError status =>
    { success := false,
      error := some ("Failed to get hotel details: " ++ httpStatusErrorMessage status),
      hotel := none, source := none }
  | .exc msg =>
    { success := false, error := some ("Failed to get hotel details: " ++ msg),
      hotel := none, source := none }

/-- The `get-hotel-details` skill (main.py:327-403). -/
def getHotelDetails (env : Env) (p : Params) : DetailsResult :=
  let property_token := p.propertyToken.getD ""
  if property_token == "" then
    { success := false, error := some "Property token is required", hotel := none, source := none }
  else if env.apiKey == "" then
    { success := false, error := some "SerpAPI API key not configured", hotel := none, source := none }
  else
    let check_in := if strTruthy p.checkInDate then p.checkInDate.getD "" else env.tomorrow
    let check_out := if strTruthy p.checkOutDate then p.checkOutDate.getD "" else env.plusThree
    processDetailsOutcome (env.detailsUpstream
      { engine := "google_hotels", property_token := property_token,
        check_in_date := check_in, check_out_date := check_out,
        api_key := env.apiKey, hl := "en", gl := "us" })

/-- Return value of `execute_skill` (main.py:406-420): the result
dictionary of whichever skill ran, or the unknown-skill error dictionary. -/
inductive SkillResult where
  | searchR (r : SearchResult)
  | detailsR (r : DetailsResult)
  | unknownSkill (message : String)
deriving DecidableEq

/-- `execute_skill` (main.py:406-420): closed routing on the skill id. -/
def executeSkill (env : Env) (skillId : String) (p : Params) : SkillResult :=
  if skillId == "search-hotels-live" then .searchR (searchHotelsLive env p)
  else if skillId == "get-hotel-details" then .detailsR (getHotelDetails env p)
  else .unknownSkill ("Unknown skill: " ++ skillId)

/-- One part of a task artifact (main.py:486-490). -/
structure TaskPart where
  type : String
  data : SkillResult
  mimeType : String
deriving DecidableEq

/-- One artifact of a task (main.py:484-493). -/
structure Artifact where
  parts : List TaskPart
deriving DecidableEq

/-- A stored task (main.py:480-494): id, `status.state`, artifacts. -/
structure Task where
  id : String
  state : String
  artifacts : List Artifact
deriving DecidableEq

/-- The in-memory task store (main.py:132), as a partial map from task id
to task. -/
def TaskStore : Type := String → Option Task

/-- The empty store. -/
def emptyStore : TaskStore := fun _ => none

/-- `tasks[k] = t` (main.py:495, 518). -/
def TaskStore.insert (s : TaskStore) (k : String) (t : Task) : TaskStore :=
  fun k' => if k' == k then some t else s k'

/-- One part of an inbound message (main.py:464-468): its `type` and its
optional `data` payload (`part.get("data", {})` defaults to the empty
dictionary). -/
structure MessagePart where
  type : String
  data : Option Params
deriving DecidableEq

/-- The loop of main.py:463-468: the skill parameters are the `data`
payload of the first part whose type is `"data"` (then `break`); with no
such part they stay the empty dictionary. -/
def extractTaskParams : List MessagePart → Params
  | [] => emptyParams
  | part :: rest =>
    if part.type == "data" then part.data.getD emptyParams
    else extractTaskParams rest

/-- The fields of the JSON-RPC `params` object the handler reads
(main.py:457-458, 503, 515): `message.parts`, `skillId`, `id`. -/
structure RpcParams where
  message : List MessagePart
  skillId : Option String
  taskId : Option String
deriving DecidableEq

/-- A JSON-RPC response body: either a `result` (always a task object) or
an `error` with code and message (main.py:142-158). -/
inductive RpcBody where
  | ok (id : Option String) (result : Task)
  | err (id : Option String) (code : Int) (message : String)
deriving DecidableEq

/-- An HTTP response from the endpoint: status code plus JSON-RPC body. -/
structure HttpResponse where
  httpStatus : Nat
  body : RpcBody
deriving DecidableEq

/-- `JSONResponse(content=...)` (main.py:443, 500, 506, 510, ...): FastAPI's
JSONResponse defaults the HTTP status code to 200, and the source never
passes an explicit status. -/
def jsonResponse (b : RpcBody) : HttpResponse :=
  { httpStatus := 200, body := b }

/-- An inbound POST to `/a2a` as the handler observes it: either the body
failed to parse/validate as a JSON-RPC request (main.py:437-445), or a
parsed envelope with id, method, and params. -/
inductive A2aInput where
  | malformed (message : String)
  | rpc (id : Option String) (method : String) (ps : RpcParams)

/-- The `/a2a` handler (main.py:429-531).  `freshId` stands for the
generated UUID of a `tasks/send` call.  Returns the task store after the
request together with the HTTP response. -/
def handleA2a (env : Env) (store : TaskStore) (freshId : String) :
    A2aInput → TaskStore × HttpResponse
  | .malformed m =>
    (store, jsonResponse (.err none (-32700) ("Parse error: " ++ m)))
  | .rpc rid method ps =>
    if method == "tasks/send" then
      let taskParams := extractTaskParams ps.message
      let result := executeSkill env (ps.skillId.getD "") taskParams
      let task : Task :=
        { id := freshId, state := "completed",
          artifacts := [{ parts := [{ type := "data", data := result,
                                      mimeType := "application/json" }] }] }
      (store.insert freshId task, jsonResponse (.ok rid task))
    else if method == "tasks/get" then
      match ps.taskId.bind store with
      | some t => (store, jsonResponse (.ok rid t))
      | none => (store, jsonResponse (.err rid (-32000) "Task not found"))
    else if method == "tasks/cancel" then
      match ps.taskId with
      | some tid =>
        match store tid with
        | some t =>
          let updated := { t with state := "canceled" }
          (store.insert tid updated, jsonResponse (.ok rid updated))
        | none => (store, jsonResponse (.err rid (-32000) "Task not found"))
      | none => (store, jsonResponse (.err rid (-32000) "Task not found"))
    else
      (store, jsonResponse (.err rid (-32601) ("Method not found: " ++ method)))

/-- The task stores reachable from process start (empty store, main.py:132)
by any sequence of handled requests. -/
inductive ReachableStore : TaskStore → Prop where
  | start : ReachableStore emptyStore
  | step (env : Env) (freshId : String) (input : A2aInput) (s : TaskStore) :
      ReachableStore s → ReachableStore (handleA2a env s freshId input).1

/-- The C8 store invariant: every stored task is terminal (`completed` or
`canceled`) and carries exactly one artifact with exactly one data part
whose payload is the unmodified return value of some skill invocation. -/
def StoreInv (s : TaskStore) : Prop :=
  ∀ tid t, s tid = some t →
    (t.state = "completed" ∨ t.state = "canceled") ∧
    ∃ (env : Env) (sk : String) (p : Params),
      t.artifacts = [{ parts := [{ type := "data", data := executeSkill env sk p,
                                   mimeType := "application/json" }] }]

theorem extractHotel_images (cur ci co : String) (p : Property) :
    (extractHotel cur ci co p).images = extractImages p.images := by
  unfold extractHotel
  cases p.rate_per_night <;> cases p.total_rate <;> rfl

/-- C1: for every upstream property record, image extraction takes at most
the first 6 entries of the image list in order; each entry yields the
thumbnail URL when a (non-empty) one is present, otherwise the original
URL, and entries with neither are dropped; in particular
`[{thumbnail: "a"}, {original: "b"}, {}]` yields exactly `["a", "b"]`. -/
theorem C1_image_extraction :
    (∀ imgs : List ImageObj,
        extractImages imgs = (imgs.take 6).filterMap specImagePick ∧
        (extractImages imgs).length ≤ 6) ∧
    (∀ (cur ci co : String) (p : Property),
        (extractHotel cur ci co p).images = extractImages p.images) ∧
    extractImages
        [{ thumbnail := some "a", original_image := none },
         { thumbnail := none, original_image := some "b" },
         { thumbnail := none, original_image := none }] = ["a", "b"] :=
  ⟨fun imgs => ⟨extractImages_eq_spec imgs, extractImages_length_le imgs⟩,
   extractHotel_images, by decide⟩

/-- C6: the normalized hotel list is drawn from the first 10 upstream
entries in order (hence has at most 10 records), and equals per-record
extraction over those 10 entries followed by the rating filter — filtering
happens after full extraction, never before the truncation. -/
theorem C6_truncate_extract_filter :
    ∀ (minR : Option ℚ) (cur ci co : String) (props : List Property),
      normalizeProperties minR cur ci co props =
        ((props.take 10).map (extractHotel cur ci co)).filter
          (fun h => passesRatingFilter minR h.rating) ∧
      (normalizeProperties minR cur ci co props).length ≤ 10 ∧
      List.Sublist (normalizeProperties minR cur ci co props)
        ((props.take 10).map (extractHotel cur ci co)) := by
  intro minR cur ci co props
  refine ⟨normalizeProperties_eq_map_filter minR cur ci co props,
          normalizeProperties_length_le minR cur ci co props, ?_⟩
  rw [normalizeProperties_eq_map_filter]
  exact List.filter_sublist _

/-- Upstream property whose `overall_rating` is the number 0: non-null,
but falsy in Python. -/
def zeroRatingProperty : Property :=
  { name := some "Zero Star Inn", description := none, property_token := none,
    overall_rating := some 0, reviews := none, hotel_class := none,
    address := none, neighborhood := none, gps_coordinates := none,
    amenities := [], images := [], rate_per_night := none, total_rate := none }

/-- C2 counterexample: with requested minimum rating 4, a record whose
extracted rating is 0 — non-null and strictly less than the minimum — is
nevertheless retained, because main.py:284 tests Python truthiness of
`hotel["rating"]` (0 is falsy) rather than non-nullness. -/
theorem C2_counterexample :
    (extractHotel "USD" "ci" "co" zeroRatingProperty).rating = some 0 ∧
    ((0 : ℚ) < 4) ∧
    normalizeProperties (some 4) "USD" "ci" "co" [zeroRatingProperty] =
      [extractHotel "USD" "ci" "co" zeroRatingProperty] := by
  decide

/-- C2 as amended: a record is dropped exactly when the requested minimum
is nonzero and the record's extracted rating is non-null, nonzero, and
strictly less than the minimum; records with an absent (or zero) rating
are always retained, as are all records when no minimum is requested. -/
theorem C2_rating_filter_amended :
    (∀ m r : ℚ,
        passesRatingFilter (some m) (some r) = false ↔ m ≠ 0 ∧ r ≠ 0 ∧ r < m) ∧
    (∀ minR : Option ℚ, passesRatingFilter minR none = true) ∧
    (∀ r : Option ℚ, passesRatingFilter none r = true) ∧
    (∀ (minR : Option ℚ) (cur ci co : String) (props : List Property),
        normalizeProperties minR cur ci co props =
          ((props.take 10).map (extractHotel cur ci co)).filter
            (fun h => passesRatingFilter minR h.rating)) := by
  refine ⟨?_, ?_, ?_, normalizeProperties_eq_map_filter⟩
  · intro m r
    simp [passesRatingFilter, ratTruthy, and_assoc]
  · intro minR
    cases minR <;> simp [passesRatingFilter, ratTruthy]
  · intro r
    simp [passesRatingFilter, ratTruthy]

/-- C2 witness: the amended filter law evaluated at minimum 4 and rating 3
(dropped) and at minimum 4 with rating absent (kept). -/
theorem C2_rating_filter_amended_witness :
    passesRatingFilter (some 4) (some 3) = false ∧
    passesRatingFilter (some 4) none = true :=
  ⟨(C2_rating_filter_amended.1 4 3).mpr (by norm_num),
   C2_rating_filter_amended.2.1 (some 4)⟩

/-- C3 counterexample: with `minPrice = 0` and `maxPrice = 300` — both
given — the source emits the single-sided `max_price` parameter, not the
combined `"0,300"` form, because main.py:207 tests Python truthiness and
0 is falsy. -/
theorem C3_counterexample :
    priceEncoding (some 0) (some 300) = some (.maxOnly 300) ∧
    priceEncoding (some 0) (some 300) ≠ some (.pricePair 0 300) := by
  decide

/-- C3 as amended: when both bounds are given and nonzero, the combined
`"min,max"` parameter is sent; a given zero value is treated as absent by
the branch selection, so both-given-with-one-zero degrades to the nonzero
side's single-sided parameter; a single given nonzero bound yields its
single-sided parameter; in every other case (neither given, or only zeros
given) no price parameter is sent. -/
theorem C3_price_encoding_amended :
    (∀ mn mx : Int,
        priceEncoding (some mn) (some mx) =
          if mn ≠ 0 ∧ mx ≠ 0 then some (.pricePair mn mx)
          else if mn ≠ 0 then some (.minOnly mn)
          else if mx ≠ 0 then some (.maxOnly mx)
          else none) ∧
    (∀ mn : Int,
        priceEncoding (some mn) none = if mn ≠ 0 then some (.minOnly mn) else none) ∧
    (∀ mx : Int,
        priceEncoding none (some mx) = if mx ≠ 0 then some (.maxOnly mx) else none) ∧
    priceEncoding none none = none ∧
    (priceEncoding (some 100) (some 300)).map PriceParam.render =
      some ("price", "100,300") ∧
    (priceEncoding (some 100) none).map PriceParam.render =
      some ("min_price", "100") ∧
    (∀ (apiKey : String) (p : Params) (ci co : String),
        (buildSerpParams apiKey p ci co).price = priceEncoding p.minPrice p.maxPrice) := by
  refine ⟨?_, ?_, ?_, by decide, by decide, by decide, fun _ _ _ _ => rfl⟩
  · intro mn mx
    by_cases hm : mn = 0 <;> by_cases hx : mx = 0 <;>
      simp [priceEncoding, intTruthy, hm, hx]
  · intro mn
    by_cases hm : mn = 0 <;> simp [priceEncoding, intTruthy, hm]
  · intro mx
    by_cases hx : mx = 0 <;> simp [priceEncoding, intTruthy, hx]

/-- C3 witness: the amended encoding evaluated at the spec's own examples
(100 and 300 combined; 100 alone single-sided; nothing given). -/
theorem C3_price_encoding_amended_witness :
    priceEncoding (some 100) (some 300) = some (.pricePair 100 300) ∧
    priceEncoding (some 100) none = some (.minOnly 100) ∧
    priceEncoding none none = none := by
  refine ⟨?_, ?_, C3_price_encoding_amended.2.2.2.1⟩
  · have h := C3_price_encoding_amended.1 100 300
    simpa using h
  · have h := C3_price_encoding_amended.2.1 100
    simpa using h

/-- Whether `pat` occurs as a contiguous infix of the character list `l`. -/
def charsInfixOf (pat : List Char) : List Char → Bool
  | [] => pat.isEmpty
  | c :: rest => pat.isPrefixOf (c :: rest) || charsInfixOf pat rest

/-- Whether `pat` occurs as a contiguous substring of `s`; used to state
that an error message "mentions" something. -/
def mentions (pat s : String) : Bool :=
  charsInfixOf pat.toList s.toList

/-- An environment with no API credential configured. -/
def noKeyEnv : Env :=
  { apiKey := "", tomorrow := "2026-10-13", plusThree := "2026-10-15",
    searchUpstream := fun _ => .exc "network unavailable",
    detailsUpstream := fun _ => .exc "network unavailable" }

/-- Parameters carrying only a property token. -/
def tokenParams : Params := { emptyParams with propertyToken := some "tok123" }

/-- C4 counterexample: with no credential configured and no property token,
`get-hotel-details` returns the validation error "Property token is
required", whose text does not mention the missing configuration — the
token check (main.py:339) precedes the credential check (main.py:346), so
the claim's "both skills return an error mentioning the missing
configuration" fails at this input. -/
theorem C4_counterexample :
    getHotelDetails noKeyEnv emptyParams =
      { success := false, error := some "Property token is required",
        hotel := none, source := none } ∧
    mentions "configur" "Property token is required" = false := by
  decide

/-- C4 as amended: with no credential configured, `search-hotels-live`
(for every input) and `get-hotel-details` (whenever a non-empty property
token is supplied) return success=false with an error message mentioning
the missing configuration; with an empty or absent token,
`get-hotel-details` instead returns the validation error "Property token
is required".  In every case the result is a constant that does not
depend on the upstream functions of the environment, so no outbound
network call is consulted — the credential check precedes any upstream
request. -/
theorem C4_missing_credential_amended :
    ∀ (env : Env) (p : Params), env.apiKey = "" →
      searchHotelsLive env p =
        { success := false,
          error := some "SerpAPI API key not configured. Please set SERPAPI_API_KEY environment variable.",
          destination := none, checkIn := none, checkOut := none,
          hotelCount := none, hotels := [], source := none } ∧
      (p.propertyToken.getD "" ≠ "" →
        getHotelDetails env p =
          { success := false, error := some "SerpAPI API key not configured",
            hotel := none, source := none }) ∧
      (p.propertyToken.getD "" = "" →
        getHotelDetails env p =
          { success := false, error := some "Property token is required",
            hotel := none, source := none }) ∧
      mentions "not configured"
        "SerpAPI API key not configured. Please set SERPAPI_API_KEY environment variable." = true ∧
      mentions "not configured" "SerpAPI API key not configured" = true := by
  intro env p hkey
  refine ⟨?_, ?_, ?_, by decide, by decide⟩
  · unfold searchHotelsLive
    simp [hkey]
  · intro htok
    unfold getHotelDetails
    simp [hkey, htok]
  · intro htok
    unfold getHotelDetails
    simp [htok]

/-- C4 witness: the amended theorem at a concrete credential-less
environment, with a present and with an absent property token. -/
theorem C4_missing_credential_amended_witness :
    searchHotelsLive noKeyEnv tokenParams =
      { success := false,
        error := some "SerpAPI API key not configured. Please set SERPAPI_API_KEY environment variable.",
        destination := none, checkIn := none, checkOut := none,
        hotelCount := none, hotels := [], source := none } ∧
    getHotelDetails noKeyEnv tokenParams =
      { success := false, error := some "SerpAPI API key not configured",
        hotel := none, source := none } :=
  ⟨(C4_missing_credential_amended noKeyEnv tokenParams rfl).1,
   (C4_missing_credential_amended noKeyEnv tokenParams rfl).2.1 (by decide)⟩

theorem processSearchOutcome_absorbs (minR : Option ℚ) (d ci co cur : String)
    (o : UpstreamOutcome) :
    (processSearchOutcome minR d ci co cur o).success = true ∨
    ((processSearchOutcome minR d ci co cur o).error).isSome = true := by
  cases o <;> simp [processSearchOutcome]

theorem processDetailsOutcome_absorbs (o : UpstreamOutcome) :
    (processDetailsOutcome o).success = true ∨
    ((processDetailsOutcome o).error).isSome = true := by
  cases o <;> simp [processDetailsOutcome]

/-- C5: every failure path of both skills — missing credential, missing
token, non-2xx status, timeout, malformed JSON, connection failure — is
absorbed into a returned result with success=false and an error message
(the outcome match is total, so no exception escapes), and a non-2xx
upstream response yields an error message carrying the numeric status
code in both skills. -/
theorem C5_failures_absorbed :
    (∀ (env : Env) (p : Params),
        (searchHotelsLive env p).success = false →
          ((searchHotelsLive env p).error).isSome = true) ∧
    (∀ (env : Env) (p : Params),
        (getHotelDetails env p).success = false →
          ((getHotelDetails env p).error).isSome = true) ∧
    (∀ (minR : Option ℚ) (d ci co cur : String) (n : Nat),
        processSearchOutcome minR d ci co cur (.httpError n) =
          { success := false, error := some ("SerpAPI request failed: " ++ toString n),
            destination := none, checkIn := none, checkOut := none,
            hotelCount := none, hotels := [], source := none }) ∧
    (∀ (minR : Option ℚ) (d ci co cur msg : String),
        processSearchOutcome minR d ci co cur (.exc msg) =
          { success := false, error := some ("Failed to search hotels: " ++ msg),
            destination := none, checkIn := none, checkOut := none,
            hotelCount := none, hotels := [], source := none }) ∧
    (∀ n : Nat,
        processDetailsOutcome (.httpError n) =
          { success := false,
            error := some ("Failed to get hotel details: " ++ httpStatusErrorMessage n),
            hotel := none, source := none }) ∧
    (∀ msg : String,
        processDetailsOutcome (.exc msg) =
          { success := false, error := some ("Failed to get hotel details: " ++ msg),
            hotel := none, source := none }) ∧
    (∀ n : Nat, ∃ pre suf : String,
        "SerpAPI request failed: " ++ toString n = pre ++ toString n ++ suf) ∧
    (∀ n : Nat, ∃ pre suf : String,
        "Failed to get hotel details: " ++ httpStatusErrorMessage n =
          pre ++ toString n ++ suf) := by
  refine ⟨?_, ?_, fun _ _ _ _ _ _ => rfl, fun _ _ _ _ _ _ => rfl,
          fun _ => rfl, fun _ => rfl, ?_, ?_⟩
  · intro env p h
    unfold searchHotelsLive at h ⊢
    by_cases hk : env.apiKey == ""
    · simp [hk]
    · simp only [hk, Bool.false_eq_true, if_false] at h ⊢
      rcases processSearchOutcome_absorbs p.minRating (p.destination.getD "") _ _
        (p.currency.getD "USD") (env.searchUpstream _) with hs | he
      · rw [h] at hs
        exact absurd hs (by simp)
      · exact he
  · intro env p h
    unfold getHotelDetails at h ⊢
    by_cases ht : p.propertyToken.getD "" == ""
    · simp [ht]
    · by_cases hk : env.apiKey == ""
      · simp [ht, hk]
      · simp only [ht, hk, Bool.false_eq_true, if_false] at h ⊢
        rcases processDetailsOutcome_absorbs (env.detailsUpstream _) with hs | he
        · rw [h] at hs
          exact absurd hs (by simp)
        · exact he
  · intro n
    exact ⟨"SerpAPI request failed: ", "", by simp⟩
  · intro n
    refine ⟨"Failed to get hotel details: Client error response ", " for url", ?_⟩
    rw [httpStatusErrorMessage, ← String.append_assoc]
    rfl

/-- An environment whose upstream always answers 503. -/
def httpErrEnv : Env :=
  { apiKey := "key", tomorrow := "2026-10-13", plusThree := "2026-10-15",
    searchUpstream := fun _ => .httpError 503,
    detailsUpstream := fun _ => .httpError 503 }

/-- C5 witness: both skills, run against an upstream answering 503, return
a result (success=false, with an error message) rather than an exception. -/
theorem C5_failures_absorbed_witness :
    ((searchHotelsLive httpErrEnv emptyParams).error).isSome = true ∧
    ((getHotelDetails httpErrEnv tokenParams).error).isSome = true :=
  ⟨C5_failures_absorbed.1 httpErrEnv emptyParams (by decide),
   C5_failures_absorbed.2.1 httpErrEnv tokenParams (by decide)⟩

theorem TaskStore.insert_same (s : TaskStore) (k : String) (t : Task) :
    (s.insert k t) k = some t := by
  unfold TaskStore.insert
  simp

theorem TaskStore.insert_insert_same (s : TaskStore) (k : String) (t : Task) :
    (s.insert k t).insert k t = s.insert k t := by
  funext k'
  unfold TaskStore.insert
  by_cases h : k' == k <;> simp [h]

theorem handleA2a_cancel_found (env : Env) (store : TaskStore) (fid : String)
    (rid : Option String) (ps : RpcParams) (tid : String) (t : Task)
    (hps : ps.taskId = some tid) (hst : store tid = some t) :
    handleA2a env store fid (.rpc rid "tasks/cancel" ps) =
      (store.insert tid { t with state := "canceled" },
       jsonResponse (.ok rid { t with state := "canceled" })) := by
  unfold handleA2a
  simp [hps, hst]

/-- C7: `tasks/cancel` on a stored task id sets that task's status to
"canceled" and returns the updated task; a second cancel of the same id is
idempotent — it returns the same canceled task, no error, and leaves the
store unchanged. -/
theorem C7_cancel_idempotent :
    ∀ (env env2 : Env) (store : TaskStore) (fid fid2 : String)
      (rid rid2 : Option String) (ps ps2 : RpcParams) (tid : String) (t : Task),
      store tid = some t → ps.taskId = some tid → ps2.taskId = some tid →
      (handleA2a env store fid (.rpc rid "tasks/cancel" ps)).1 tid =
          some { t with state := "canceled" } ∧
      (handleA2a env store fid (.rpc rid "tasks/cancel" ps)).2 =
          jsonResponse (.ok rid { t with state := "canceled" }) ∧
      handleA2a env2 (handleA2a env store fid (.rpc rid "tasks/cancel" ps)).1 fid2
          (.rpc rid2 "tasks/cancel" ps2) =
        ((handleA2a env store fid (.rpc rid "tasks/cancel" ps)).1,
         jsonResponse (.ok rid2 { t with state := "canceled" })) := by
  intro env env2 store fid fid2 rid rid2 ps ps2 tid t hst hps hps2
  have h1 := handleA2a_cancel_found env store fid rid ps tid t hps hst
  rw [h1]
  refine ⟨TaskStore.insert_same store tid _, rfl, ?_⟩
  have hst2 : (store.insert tid { t with state := "canceled" }) tid =
      some { t with state := "canceled" } := TaskStore.insert_same store tid _
  have h2 := handleA2a_cancel_found env2 (store.insert tid { t with state := "canceled" })
    fid2 rid2 ps2 tid { t with state := "canceled" } hps2 hst2
  rw [h2, TaskStore.insert_insert_same]

/-- A concrete data part, for building concrete stored tasks. -/
def demoPart : TaskPart :=
  { type := "data", data := SkillResult.unknownSkill "Unknown skill: ",
    mimeType := "application/json" }

def demoTask : Task :=
  { id := "t1", state := "completed", artifacts := [{ parts := [demoPart] }] }

/-- Request params addressing task "t1". -/
def cancelParams : RpcParams := { message := [], skillId := none, taskId := some "t1" }

/-- C7 witness: cancel twice on a concrete one-task store. -/
theorem C7_cancel_idempotent_witness :
    (handleA2a noKeyEnv (emptyStore.insert "t1" demoTask) "f1"
        (.rpc (some "1") "tasks/cancel" cancelParams)).2 =
      jsonResponse (.ok (some "1") { demoTask with state := "canceled" }) ∧
    handleA2a noKeyEnv
        (handleA2a noKeyEnv (emptyStore.insert "t1" demoTask) "f1"
          (.rpc (some "1") "tasks/cancel" cancelParams)).1 "f2"
        (.rpc (some "2") "tasks/cancel" cancelParams) =
      ((handleA2a noKeyEnv (emptyStore.insert "t1" demoTask) "f1"
          (.rpc (some "1") "tasks/cancel" cancelParams)).1,
       jsonResponse (.ok (some "2") { demoTask with state := "canceled" })) :=
  ⟨(C7_cancel_idempotent noKeyEnv noKeyEnv (emptyStore.insert "t1" demoTask) "f1" "f2"
      (some "1") (some "2") cancelParams cancelParams "t1" demoTask
      rfl rfl rfl).2.1,
   (C7_cancel_idempotent noKeyEnv noKeyEnv (emptyStore.insert "t1" demoTask) "f1" "f2"
      (some "1") (some "2") cancelParams cancelParams "t1" demoTask
      rfl rfl rfl).2.2⟩

/-- C8: invariant over all reachable task-store states — every stored task
has state "completed" or "canceled", and exactly one artifact whose single
data part is exactly the return value of a skill invocation, untouched by
the protocol layer. -/
theorem C8_store_invariant : ∀ s : TaskStore, ReachableStore s → StoreInv s := by
  intro s h
  induction h with
  | start =>
    intro tid t ht
    exact absurd ht (by simp [emptyStore])
  | step env fid input s hs ih =>
    cases input with
    | malformed m =>
      simpa only [handleA2a] using ih
    | rpc rid method ps =>
      by_cases h1 : method == "tasks/send"
      · intro tid t ht
        simp only [handleA2a, h1, if_pos] at ht
        unfold TaskStore.insert at ht
        by_cases he : tid == fid
        · simp only [he, if_pos, Option.some.injEq] at ht
          subst ht
          exact ⟨Or.inl rfl, env, ps.skillId.getD "", extractTaskParams ps.message, rfl⟩
        · simp only [he, Bool.false_eq_true, if_false] at ht
          exact ih tid t ht
      · by_cases h2 : method == "tasks/get"
        · intro tid t ht
          rcases hb : ps.taskId.bind s with _ | t0 <;>
            simp only [handleA2a, h1, h2, hb, Bool.false_eq_true, if_false, if_pos] at ht <;>
            exact ih tid t ht
        · by_cases h3 : method == "tasks/cancel"
          · rcases hid : ps.taskId with _ | tid0
            · intro tid t ht
              simp only [handleA2a, h1, h2, h3, hid, Bool.false_eq_true, if_false, if_pos] at ht
              exact ih tid t ht
            · rcases hsto : s tid0 with _ | t0
              · intro tid t ht
                simp only [handleA2a, h1, h2, h3, hid, hsto, Bool.false_eq_true,
                  if_false, if_pos] at ht
                exact ih tid t ht
              · intro tid t ht
                simp only [handleA2a, h1, h2, h3, hid, hsto, Bool.false_eq_true,
                  if_false, if_pos] at ht
                unfold TaskStore.insert at ht
                by_cases he : tid == tid0
                · simp only [he, if_pos, Option.some.injEq] at ht
                  subst ht
                  obtain ⟨_, env0, sk0, p0, hart⟩ := ih tid0 t0 hsto
                  exact ⟨Or.inr rfl, env0, sk0, p0, hart⟩
                · simp only [he, Bool.false_eq_true, if_false] at ht
                  exact ih tid t ht
          · intro tid t ht
            simp only [handleA2a, h1, h2, h3, Bool.false_eq_true, if_false] at ht
            exact ih tid t ht

/-- A `tasks/send` input invoking `search-hotels-live` with no parts. -/
def sendSearchInput : A2aInput :=
  .rpc (some "1") "tasks/send"
    { message := [], skillId := some "search-hotels-live", taskId := none }

/-- C8 witness: the invariant holds of the store reached by one
`tasks/send` from the empty store. -/
theorem C8_store_invariant_witness :
    StoreInv (handleA2a noKeyEnv emptyStore "t1" sendSearchInput).1 :=
  C8_store_invariant _
    (ReachableStore.step noKeyEnv "t1" sendSearchInput emptyStore ReachableStore.start)

/-- C9: every request to the JSON-RPC endpoint is answered with HTTP
status 200 — including parse errors (-32700), unknown methods (-32601),
and task-lookup misses (-32000) — and those failures appear only as error
objects inside the JSON-RPC envelope. -/
theorem C9_always_http_200 :
    (∀ (env : Env) (store : TaskStore) (fid : String) (input : A2aInput),
        ((handleA2a env store fid input).2).httpStatus = 200) ∧
    (∀ (env : Env) (store : TaskStore) (fid m : String),
        (handleA2a env store fid (.malformed m)).2 =
          jsonResponse (.err none (-32700) ("Parse error: " ++ m))) ∧
    (∀ (env : Env) (store : TaskStore) (fid : String) (rid : Option String)
        (method : String) (ps : RpcParams),
        method ≠ "tasks/send" → method ≠ "tasks/get" → method ≠ "tasks/cancel" →
        (handleA2a env store fid (.rpc rid method ps)).2 =
          jsonResponse (.err rid (-32601) ("Method not found: " ++ method))) ∧
    (∀ (env : Env) (store : TaskStore) (fid : String) (rid : Option String)
        (ps : RpcParams), ps.taskId.bind store = none →
        (handleA2a env store fid (.rpc rid "tasks/get" ps)).2 =
          jsonResponse (.err rid (-32000) "Task not found")) ∧
    (∀ (env : Env) (store : TaskStore) (fid : String) (rid : Option String)
        (ps : RpcParams), ps.taskId.bind store = none →
        (handleA2a env store fid (.rpc rid "tasks/cancel" ps)).2 =
          jsonResponse (.err rid (-32000) "Task not found")) := by
  refine ⟨?_, fun _ _ _ _ => rfl, ?_, ?_, ?_⟩
  · intro env store fid input
    cases input with
    | malformed m => rfl
    | rpc rid method ps =>
      unfold handleA2a
      by_cases h1 : method == "tasks/send"
      · simp [h1, jsonResponse]
      · by_cases h2 : method == "tasks/get"
        · rcases hb : ps.taskId.bind store with _ | t <;>
            simp [h1, h2, hb, jsonResponse]
        · by_cases h3 : method == "tasks/cancel"
          · rcases hid : ps.taskId with _ | tid
            · simp [h1, h2, h3, hid, jsonResponse]
            · rcases hs : store tid with _ | t <;>
                simp [h1, h2, h3, hid, hs, jsonResponse]
          · simp [h1, h2, h3, jsonResponse]
  · intro env store fid rid method ps hm1 hm2 hm3
    have b1 : (method == "tasks/send") = false := by simp [hm1]
    have b2 : (method == "tasks/get") = false := by simp [hm2]
    have b3 : (method == "tasks/cancel") = false := by simp [hm3]
    unfold handleA2a
    simp [b1, b2, b3]
  · intro env store fid rid ps hb
    unfold handleA2a
    simp [hb]
  · intro env store fid rid ps hb
    unfold handleA2a
    rcases hid : ps.taskId with _ | tid
    · simp [hid]
    · rw [hid] at hb
      simp only [Option.some_bind] at hb
      simp [hid, hb]

/-- Empty JSON-RPC params. -/
def emptyRpcParams : RpcParams := { message := [], skillId := none, taskId := none }

/-- C9 witness: an unknown method on a concrete request is answered with
the -32601 envelope error (and, per the first conjunct, HTTP 200). -/
theorem C9_always_http_200_witness :
    (handleA2a noKeyEnv emptyStore "t1" (.rpc (some "7") "frobnicate" emptyRpcParams)).2 =
      jsonResponse (.err (some "7") (-32601) ("Method not found: " ++ "frobnicate")) :=
  C9_always_http_200.2.2.1 noKeyEnv emptyStore "t1" (some "7") "frobnicate" emptyRpcParams
    (by decide) (by decide) (by decide)

/-- The task object a `tasks/send` request stores and returns
(main.py:480-494), with its single artifact wrapping the skill result of
the parameters extracted from the message parts. -/
def sentPart (env : Env) (ps : RpcParams) : TaskPart :=
  { type := "data",
    data := executeSkill env (ps.skillId.getD "") (extractTaskParams ps.message),
    mimeType := "application/json" }

def sentTask (env : Env) (fid : String) (ps : RpcParams) : Task :=
  { id := fid, state := "completed", artifacts := [{ parts := [sentPart env ps] }] }

/-- C10: the skill parameters of `tasks/send` come from the first message
part whose type is "data" (later data parts are ignored); with no data
part the skill runs on the empty parameter dictionary, and for
`search-hotels-live` that means the destination defaults to the empty
string and the upstream query is still attempted (yielding a success
result when the upstream answers) rather than the request being
rejected. -/
theorem C10_first_data_part :
    (∀ (pre : List MessagePart) (part : MessagePart) (post : List MessagePart),
        (∀ q ∈ pre, q.type ≠ "data") → part.type = "data" →
        extractTaskParams (pre ++ part :: post) = part.data.getD emptyParams) ∧
    (∀ parts : List MessagePart, (∀ q ∈ parts, q.type ≠ "data") →
        extractTaskParams parts = emptyParams) ∧
    (∀ (env : Env) (store : TaskStore) (fid : String) (rid : Option String)
        (ps : RpcParams),
        (handleA2a env store fid (.rpc rid "tasks/send" ps)).1 fid =
          some (sentTask env fid ps)) ∧
    (∀ apiKey ci co : String, (buildSerpParams apiKey emptyParams ci co).q = "") ∧
    (∀ (env : Env) (d : UpstreamData), env.apiKey ≠ "" →
        env.searchUpstream (buildSerpParams env.apiKey emptyParams env.tomorrow env.plusThree) =
          .ok d →
        (searchHotelsLive env emptyParams).success = true ∧
        (searchHotelsLive env emptyParams).destination = some "") := by
  refine ⟨?_, ?_, ?_, fun _ _ _ => rfl, ?_⟩
  · intro pre part post hpre hpart
    induction pre with
    | nil =>
      simp only [List.nil_append]
      unfold extractTaskParams
      simp [hpart]
    | cons q pre ih =>
      have hq : (q.type == "data") = false := by
        simp [hpre q (List.mem_cons_self q pre)]
      simp only [List.cons_append]
      unfold extractTaskParams
      rw [hq]
      simp only [Bool.false_eq_true, if_false]
      exact ih fun r hr => hpre r (List.mem_cons_of_mem q hr)
  · intro parts hparts
    induction parts with
    | nil => rfl
    | cons q parts ih =>
      have hq : (q.type == "data") = false := by
        simp [hparts q (List.mem_cons_self q parts)]
      unfold extractTaskParams
      rw [hq]
      simp only [Bool.false_eq_true, if_false]
      exact ih fun r hr => hparts r (List.mem_cons_of_mem q hr)
  · intro env store fid rid ps
    unfold handleA2a
    exact TaskStore.insert_same store fid _
  · intro env d hk hok
    have hkb : (env.apiKey == "") = false := by simp [hk]
    unfold searchHotelsLive
    simp only [hkb, Bool.false_eq_true, if_false]
    have : (if strTruthy emptyParams.checkInDate then emptyParams.checkInDate.getD ""
            else env.tomorrow) = env.tomorrow := rfl
    rw [show emptyParams.destination.getD "" = "" from rfl] at *
    simp only [show (if strTruthy emptyParams.checkInDate then emptyParams.checkInDate.getD ""
        else env.tomorrow) = env.tomorrow from rfl,
      show (if strTruthy emptyParams.checkOutDate then emptyParams.checkOutDate.getD ""
        else env.plusThree) = env.plusThree from rfl]
    rw [hok]
    exact ⟨rfl, rfl⟩

/-- An environment whose upstream always answers successfully with an
empty property list. -/
def okEnv : Env :=
  { apiKey := "key", tomorrow := "2026-10-13", plusThree := "2026-10-15",
    searchUpstream := fun _ => .ok { properties := [], rest := "resp" },
    detailsUpstream := fun _ => .ok { properties := [], rest := "resp" } }

/-- Concrete message parts for the C10 witness. -/
def textPart : MessagePart := { type := "text", data := none }

def dataPartWithToken : MessagePart := { type := "data", data := some tokenParams }

def dataPartEmptyParams : MessagePart := { type := "data", data := some emptyParams }

/-- C10 witness: the first data part wins over a later one, and a
`search-hotels-live` call with empty parameters against a responsive
upstream succeeds with the empty destination. -/
theorem C10_first_data_part_witness :
    extractTaskParams [textPart, dataPartWithToken, dataPartEmptyParams] = tokenParams ∧
    (searchHotelsLive okEnv emptyParams).success = true :=
  ⟨C10_first_data_part.1 [textPart] dataPartWithToken [dataPartEmptyParams]
      (by decide) rfl,
   (C10_first_data_part.2.2.2.2 okEnv { properties := [], rest := "resp" }
      (by decide) rfl).1⟩

end SerpApiAgent
